import Mathlib

/-!
Shallow embedding of the local RAG question-answering pipeline: the engine
(OllamaLLM and LocalRAGSystem in rag_engine.py) and the HTTP handlers
(main.py), together with theorems checking the specification claims about
retrieval ranking, prompt composition, atomic and streaming answering, the
conversation ledger, and the readiness invariant.
-/

namespace Rag

/-- Python character slicing of the first n characters, defined on the
character list so that the kernel can evaluate it. -/
def strTake (s : String) (n : Nat) : String := ⟨s.data.take n⟩

/-- Whitespace test used by strTrim: the ASCII whitespace characters. -/
def isWs (c : Char) : Bool := c == ' ' || c == '\t' || c == '\n' || c == '\r'

/-- Python str.strip on ASCII whitespace, defined on the character list so
that the kernel can evaluate it. -/
def strTrim (s : String) : String :=
  ⟨((s.data.dropWhile isWs).reverse.dropWhile isWs).reverse⟩

/-- Python str.join of a separator over a list of strings. -/
def intercalateStr (sep : String) : List String → String
  | [] => ""
  | [x] => x
  | x :: y :: xs => x ++ sep ++ intercalateStr sep (y :: xs)

/-- Concatenation of a list of strings, the shape of the Python loops that
build a string by repeated appending. -/
def joinStr (l : List String) : String := l.foldl (fun r s => r ++ s) ""

/-- Metadata attached to a document chunk; only the filename key is read by
the code under verification. -/
structure Metadata where
  filename : Option String
deriving DecidableEq, Repr

/-- A document chunk as stored in the vector store. -/
structure Doc where
  page_content : String
  metadata : Metadata
deriving DecidableEq, Repr

/-- One similarity-search hit: a document plus its distance score. Scores
matter only through their ordering, so they are modelled as integers. -/
structure ScoredDoc where
  doc : Doc
  score : Int
deriving DecidableEq, Repr

/-- An attached vector store, modelled by its observable behaviour: the
similarity search as a function from query and k to the list of hits. -/
def VectorStore : Type := String → Nat → List ScoredDoc

/-- An element of the list produced by retrieve_relevant_docs. -/
structure RetrievedDoc where
  content : String
  metadata : Metadata
  relevance_score : Int
  relevance_rank : Nat
deriving DecidableEq, Repr

/-- Embedding of LocalRAGSystem.retrieve_relevant_docs: returns the empty
list when no vector store is attached, otherwise wraps each hit of the
similarity search with its score and a 1-based rank in enumeration order. -/
def retrieve_relevant_docs (vectorstore : Option VectorStore) (query : String)
    (k : Nat) : List RetrievedDoc :=
  match vectorstore with
  | none => []
  | some vs =>
      ((vs query k).enum).map fun p =>
        { content := p.2.doc.page_content
          metadata := p.2.doc.metadata
          relevance_score := p.2.score
          relevance_rank := p.1 + 1 }

/-- Truncated source preview attached to answers and ledger entries. -/
structure SourceSummary where
  content_preview : String
  metadata : Metadata
  relevance_score : Int
deriving DecidableEq, Repr

/-- A conversation ledger entry: one question and answer exchange together
with its source summaries and timestamp. -/
structure Entry where
  question : String
  answer : String
  sources : List SourceSummary
  timestamp : String
deriving DecidableEq, Repr

/-- Embedding of the source formatting shared by ask and ask_stream: the
preview is the first 200 characters of the content plus an ellipsis,
paired with the metadata and the score. -/
def mkSourceSummary (d : RetrievedDoc) : SourceSummary :=
  { content_preview := strTake d.content 200 ++ "..."
    metadata := d.metadata
    relevance_score := d.relevance_score }

/-- Context block of the composed prompt: one labelled block per retrieved
document, in list order, separated by blank lines. -/
def contextText (context_docs : List RetrievedDoc) : String :=
  intercalateStr "\n\n" (context_docs.map fun d =>
    "[Document " ++ toString d.relevance_rank ++ " from "
      ++ d.metadata.filename.getD "unknown" ++ "]:\n" ++ d.content)

/-- Rendering of one history turn inside the prompt. -/
def renderTurn (t : Entry) : String :=
  "User: " ++ t.question ++ "\nAssistant: " ++ t.answer ++ "\n"

/-- Embedding of the Python slice taking the last three elements. -/
def lastThree (l : List Entry) : List Entry := l.drop (l.length - 3)

/-- History section of the prompt: empty for an empty history, otherwise a
fixed header followed by the last three turns rendered oldest first. -/
def historyText (conversation_history : List Entry) : String :=
  if conversation_history.length > 0 then
    "\n\nPrevious conversation:\n"
      ++ joinStr ((lastThree conversation_history).map renderTurn)
  else ""

/-- Fixed instruction header of the prompt; the two templates in the
source, in generate_answer and generate_answer_stream, are identical. -/
def promptHeader : String :=
  "You are a helpful assistant. Answer the question using ONLY the information provided in the Context below.\n\nCRITICAL RULES:\n1. Use ONLY information from the Context documents below\n2. If the answer is not in the Context, say \"I don\x27t have that information in the provided documents\"\n3. Do NOT use your general knowledge\n4. Do NOT make up information\n5. Cite the document source when possible\n\nContext from uploaded documents:\n"

/-- Embedding of the prompt assembly shared by generate_answer and
generate_answer_stream. -/
def buildPrompt (query : String) (context_docs : List RetrievedDoc)
    (conversation_history : List Entry) : String :=
  promptHeader ++ contextText context_docs ++ "\n"
    ++ historyText conversation_history
    ++ "\n\nQuestion: " ++ query ++ "\n\nAnswer (based ONLY on Context above):"

namespace OllamaLLM

/-- Embedding of OllamaLLM.generate: the backend outcome is either the
response text or an exception message; the except clause swallows every
exception and returns the error string below as the result. -/
def generate (backend : Except String String) : String :=
  match backend with
  | .ok r => r
  | .error e => "Error generating response: " ++ e

/-- Embedding of OllamaLLM.generate_stream: the fragments successfully read
from the backend are yielded in order; if the backend then raises, the
except clause yields one final fragment holding the error text. -/
def generate_stream (fragments : List String) (failure : Option String) :
    List String :=
  match failure with
  | none => fragments
  | some e => fragments ++ ["Error generating response: " ++ e]

end OllamaLLM

/-- Result dictionary of LocalRAGSystem.ask: either the error dictionary or
a normal result carrying question, answer and sources. -/
inductive AskResult where
  | error (msg : String)
  | ok (question : String) (answer : String) (sources : List SourceSummary)
deriving DecidableEq, Repr

/-- Boolean form of the Python check whether the error key is present. -/
def AskResult.isError : AskResult → Bool
  | .error _ => true
  | .ok _ _ _ => false

/-- Answer field of an ask result, empty on the error dictionary. -/
def askAnswerD (r : AskResult) : String :=
  match r with
  | .ok _ a _ => a
  | .error _ => ""

/-- Fallback answer of atomic mode when retrieval returns nothing. -/
def noInfoAnswer : String :=
  "I couldn\x27t find any relevant information in the documents."

/-- Embedding of LocalRAGSystem.ask. The generation backend is modelled as
a function gen from the composed prompt to the text it returns, so that
one call of OllamaLLM.generate is gen applied to the prompt. -/
def ask (vectorstore : Option VectorStore) (gen : String → String)
    (query : String) (conversation_history : List Entry) : AskResult :=
  match vectorstore with
  | none => .error "System not initialized. Please load documents first."
  | some vs =>
      let relevant_docs := retrieve_relevant_docs (some vs) query 10
      if relevant_docs.isEmpty then
        .ok query noInfoAnswer []
      else
        let answer := gen (buildPrompt query relevant_docs conversation_history)
        .ok query (strTrim answer) (relevant_docs.map mkSourceSummary)

/-- One JSON event yielded by ask_stream, modelled by its fields; an absent
field is none, and done models the lookup with default false. -/
structure StreamEvent where
  question : Option String := none
  answer : Option String := none
  sources : Option (List SourceSummary) := none
  answer_chunk : Option String := none
  error : Option String := none
  done : Bool := false
deriving DecidableEq, Repr

/-- First event of a stream over non-empty retrieval: the question and the
source summaries, an empty answer_chunk, and done false. -/
def headerEvent (q : String) (srcs : List SourceSummary) : StreamEvent :=
  { question := some q, sources := some srcs, answer_chunk := some "" }

/-- One event per generated fragment. -/
def chunkEvent (c : String) : StreamEvent := { answer_chunk := some c }

/-- Terminal event of a stream that ran the generation loop. -/
def doneEvent : StreamEvent := { done := true }

/-- Terminal event of a stream whose retrieval found nothing. -/
def noInfoEvent (q : String) : StreamEvent :=
  { question := some q
    answer := some "I couldn\x27t find any relevant information."
    sources := some []
    done := true }

/-- Event yielded by ask_stream when no vector store is attached. -/
def notInitializedEvent : StreamEvent :=
  { error := some "System not initialized" }

/-- Embedding of LocalRAGSystem.ask_stream. The streaming backend is
modelled as genStream from the composed prompt to the fragment sequence it
yields; for a failing backend that sequence is what generate_stream
produces, ending with the error text. -/
def ask_stream (vectorstore : Option VectorStore)
    (genStream : String → List String) (query : String)
    (conversation_history : List Entry) : List StreamEvent :=
  match vectorstore with
  | none => [notInitializedEvent]
  | some vs =>
      let relevant_docs := retrieve_relevant_docs (some vs) query 10
      if relevant_docs.isEmpty then
        [noInfoEvent query]
      else
        headerEvent query (relevant_docs.map mkSourceSummary)
          :: (genStream (buildPrompt query relevant_docs conversation_history)).map
              chunkEvent
          ++ [doneEvent]

/-- In-memory conversation store of main.py, keyed by session id. -/
abbrev ConvStore := List (String × List Entry)

/-- Lookup of a session id in the store. -/
def ConvStore.find (cs : ConvStore) (sid : String) : Option (List Entry) :=
  (List.find? (fun p => p.1 == sid) cs).map (fun p => p.2)

/-- Embedding of the Python membership test on the store. -/
def ConvStore.contains (cs : ConvStore) (sid : String) : Bool :=
  (ConvStore.find cs sid).isSome

/-- Embedding of the store lookup with default empty list. -/
def ConvStore.get (cs : ConvStore) (sid : String) : List Entry :=
  (ConvStore.find cs sid).getD []

/-- Appending one entry to a session, creating the session if absent and
leaving every other session untouched. -/
def ConvStore.appendEntry (cs : ConvStore) (sid : String) (e : Entry) :
    ConvStore :=
  match cs with
  | [] => [(sid, [e])]
  | (k, l) :: rest =>
      if k == sid then (k, l ++ [e]) :: rest
      else (k, l) :: ConvStore.appendEntry rest sid e

/-- Embedding of deleting a session id from the store. -/
def ConvStore.eraseSession (cs : ConvStore) (sid : String) : ConvStore :=
  List.eraseP (fun p => p.1 == sid) cs

/-- An HTTPException raised by a handler: status code and detail string. -/
structure HttpError where
  status : Nat
  detail : String
deriving DecidableEq, Repr

/-- Response body of the atomic ask endpoint. -/
structure AnswerResponse where
  question : String
  answer : String
  sources : List SourceSummary
  session_id : String
deriving DecidableEq, Repr

/-- Embedding of the atomic ask handler of main.py: readiness gate, history
lookup, engine call, translation of an engine error dictionary into an
HTTP error, and otherwise an unconditional append of the resulting turn.
The resolved session id and the timestamp are parameters because the uuid
generator and the clock are external. -/
def ask_question (system_ready : Bool) (vectorstore : Option VectorStore)
    (gen : String → String) (question : String) (session_id : String)
    (timestamp : String) (cs : ConvStore) :
    Except HttpError (AnswerResponse × ConvStore) :=
  if system_ready then
    let history := ConvStore.get cs session_id
    match ask vectorstore gen question history with
    | .error e => .error ⟨400, e⟩
    | .ok q a s =>
        .ok (⟨q, a, s, session_id⟩,
             ConvStore.appendEntry cs session_id ⟨q, a, s, timestamp⟩)
  else
    .error ⟨400, "System not initialized. Please call POST /initialize first."⟩

/-- Embedding of the generator loop inside the streaming handler: each
event is forwarded; a sources field replaces the captured sources; a
non-empty answer_chunk is appended to the accumulated answer; at the first
event with done true, a turn is appended to the store when the accumulated
answer is non-empty, and the loop breaks. Returns the forwarded events and
the final store. -/
def runStream (question : String) (session_id : String) (timestamp : String)
    (cs : ConvStore) :
    List StreamEvent → String → List SourceSummary →
      List StreamEvent × ConvStore
  | [], _, _ => ([], cs)
  | e :: rest, full_answer, sources =>
      let sources1 := match e.sources with
        | some s => s
        | none => sources
      let full1 := match e.answer_chunk with
        | some c => if c == "" then full_answer else full_answer ++ c
        | none => full_answer
      if e.done then
        let cs1 := if full1 == "" then cs
          else ConvStore.appendEntry cs session_id
            ⟨question, full1, sources1, timestamp⟩
        ([e], cs1)
      else
        let r := runStream question session_id timestamp cs rest full1 sources1
        (e :: r.1, r.2)

/-- Embedding of the streaming ask handler of main.py: readiness gate, then
the generator loop over the events of ask_stream, starting from an empty
accumulated answer and empty captured sources. -/
def ask_question_stream (system_ready : Bool) (vectorstore : Option VectorStore)
    (genStream : String → List String) (question : String)
    (session_id : String) (timestamp : String) (cs : ConvStore) :
    Except HttpError (List StreamEvent × ConvStore) :=
  if system_ready then
    let history := ConvStore.get cs session_id
    .ok (runStream question session_id timestamp cs
          (ask_stream vectorstore genStream question history) "" [])
  else
    .error ⟨400, "System not initialized. Please call POST /initialize first."⟩

/-- Response body of the history read endpoint. -/
structure ConversationHistoryResponse where
  session_id : String
  conversation_count : Nat
  conversations : List Entry
deriving DecidableEq, Repr

/-- Embedding of the history read endpoint: an unknown session id raises a
404 error, a known one returns the stored turns. -/
def get_conversation_history (cs : ConvStore) (session_id : String) :
    Except HttpError ConversationHistoryResponse :=
  if ConvStore.contains cs session_id then
    .ok ⟨session_id, (ConvStore.get cs session_id).length,
         ConvStore.get cs session_id⟩
  else
    .error ⟨404, "Session \x27" ++ session_id ++ "\x27 not found"⟩

/-- Embedding of the single-session clear endpoint: an unknown session id
raises a 404 error, a known one is deleted from the store. -/
def clear_conversation_history (cs : ConvStore) (session_id : String) :
    Except HttpError ConvStore :=
  if ConvStore.contains cs session_id then
    .ok (ConvStore.eraseSession cs session_id)
  else
    .error ⟨404, "Session \x27" ++ session_id ++ "\x27 not found"⟩

/-- Process-wide mutable state touched by the HTTP endpoints: the readiness
flag, the vector store handle held by the engine, and the conversation
store. -/
structure AppState where
  system_ready : Bool
  vectorstore : Option VectorStore
  conversation_store : ConvStore

/-- Transitions of the HTTP endpoints on the process state. A successful
ingestion installs a fresh store handle and sets the flag; the missing
documents check fires before the try block and changes nothing; an
exception inside the try block clears the flag while the handle may or may
not have been replaced already; reset clears only the flag; the question
and conversation endpoints touch only the conversation store. -/
inductive Step : AppState → AppState → Prop where
  | init_ok (s : AppState) (vs : VectorStore) :
      Step s ⟨true, some vs, s.conversation_store⟩
  | init_nodocs (s : AppState) : Step s s
  | init_err (s : AppState) (h : Option VectorStore) :
      Step s ⟨false, h, s.conversation_store⟩
  | reset (s : AppState) :
      Step s ⟨false, s.vectorstore, s.conversation_store⟩
  | ask_atomic (s : AppState) (gen : String → String) (q sid ts : String) :
      Step s ⟨s.system_ready, s.vectorstore,
        match ask_question s.system_ready s.vectorstore gen q sid ts
            s.conversation_store with
        | .ok r => r.2
        | .error _ => s.conversation_store⟩
  | ask_streaming (s : AppState) (gs : String → List String) (q sid ts : String) :
      Step s ⟨s.system_ready, s.vectorstore,
        match ask_question_stream s.system_ready s.vectorstore gs q sid ts
            s.conversation_store with
        | .ok r => r.2
        | .error _ => s.conversation_store⟩
  | clear_one (s : AppState) (sid : String) :
      Step s ⟨s.system_ready, s.vectorstore,
        match clear_conversation_history s.conversation_store sid with
        | .ok cs1 => cs1
        | .error _ => s.conversation_store⟩
  | clear_every (s : AppState) :
      Step s ⟨s.system_ready, s.vectorstore, []⟩

/-- Initial state of the process: not ready, no store handle, no sessions. -/
def initState : AppState := ⟨false, none, []⟩

/-- States reachable from the initial state through endpoint transitions. -/
inductive Reachable : AppState → Prop where
  | base : Reachable initState
  | step {s t : AppState} : Reachable s → Step s t → Reachable t

/-- Events of a streaming handler result, empty when the handler raised. -/
def streamEventsOf (r : Except HttpError (List StreamEvent × ConvStore)) :
    List StreamEvent :=
  match r with
  | .ok p => p.1
  | .error _ => []

/-- Final store of a streaming handler result, empty when the handler
raised. -/
def streamStoreOf (r : Except HttpError (List StreamEvent × ConvStore)) :
    ConvStore :=
  match r with
  | .ok p => p.2
  | .error _ => []

/-- Concatenation in emission order of all answer_chunk fragments. -/
def streamConcat (events : List StreamEvent) : String :=
  joinStr (events.filterMap (fun e => e.answer_chunk))

/-- Concrete vector store holding a single document, used for witnesses. -/
def skyStore : VectorStore := fun _ _ =>
  [⟨⟨"The sky is blue.", ⟨some "sky.txt"⟩⟩, 1⟩]

/-- Concrete question used for witnesses. -/
def skyQ : String := "What color is the sky?"

/-- Source summaries that retrieval over skyStore produces. -/
def skySources : List SourceSummary :=
  [⟨"The sky is blue....", ⟨some "sky.txt"⟩, 1⟩]

/-- Concrete vector store returning no hits. -/
def emptyStore : VectorStore := fun _ _ => []

/-- Concrete vector store with two hits in score order, used for witnesses. -/
def twoDocStore : VectorStore := fun _ _ =>
  [⟨⟨"alpha fact", ⟨some "a.txt"⟩⟩, 1⟩, ⟨⟨"beta fact", ⟨some "b.txt"⟩⟩, 2⟩]

/-- Concrete ready state used for witnesses. -/
def readyState : AppState := ⟨true, some skyStore, []⟩

/-- Concrete ledger entry used for witnesses. -/
def turn1 : Entry := ⟨"q1", "a1", [], "t1"⟩

/-- Concrete ledger entry used for witnesses. -/
def turn2 : Entry := ⟨"q2", "a2", [], "t2"⟩

/-- Concrete ledger entry used for witnesses. -/
def turn3 : Entry := ⟨"q3", "a3", [], "t3"⟩

/-- Concrete ledger entry used for witnesses. -/
def turn4 : Entry := ⟨"q4", "a4", [], "t4"⟩

/-- Folding append over a list distributes over a prefix of the seed. -/
theorem foldl_append_shift (l : List String) (a b : String) :
    l.foldl (fun r s => r ++ s) (a ++ b) = a ++ l.foldl (fun r s => r ++ s) b := by
  induction l generalizing b with
  | nil => simp
  | cons c l ih =>
      simp only [List.foldl_cons]
      rw [String.append_assoc, ih]

/-- Unfolding lemma for joinStr on a cons cell. -/
theorem joinStr_cons (s : String) (l : List String) :
    joinStr (s :: l) = s ++ joinStr l := by
  have h := foldl_append_shift l s ""
  rw [String.append_empty] at h
  simpa [joinStr] using h

/-- Appending an entry extends exactly the addressed session by that entry. -/
theorem ConvStore.get_appendEntry (cs : ConvStore) (sid : String) (e : Entry) :
    ConvStore.get (ConvStore.appendEntry cs sid e) sid
      = ConvStore.get cs sid ++ [e] := by
  induction cs with
  | nil => simp [ConvStore.get, ConvStore.appendEntry, ConvStore.find]
  | cons p rest ih =>
      obtain ⟨k, l⟩ := p
      by_cases hk : k = sid
      · subst hk
        simp [ConvStore.get, ConvStore.appendEntry, ConvStore.find]
      · have hk2 : (k == sid) = false := by simp [hk]
        simp only [ConvStore.appendEntry, hk2, Bool.false_eq_true, if_false]
        simpa [ConvStore.get, ConvStore.find, List.find?_cons, hk2] using ih

/-- A session id that is absent from the store has empty history. -/
theorem ConvStore.get_of_not_contains (cs : ConvStore) (sid : String)
    (h : ConvStore.contains cs sid = false) : ConvStore.get cs sid = [] := by
  unfold ConvStore.contains at h
  unfold ConvStore.get
  cases hf : ConvStore.find cs sid with
  | none => rfl
  | some l => rw [hf] at h; simp at h

/-- Retrieval preserves the scores of the vector store hits in order. -/
theorem retrieve_map_score (vs : VectorStore) (q : String) (k : Nat) :
    (retrieve_relevant_docs (some vs) q k).map RetrievedDoc.relevance_score
      = (vs q k).map ScoredDoc.score := by
  unfold retrieve_relevant_docs
  rw [List.map_map]
  have hcomp : (RetrievedDoc.relevance_score ∘ fun p : Nat × ScoredDoc =>
      ({ content := p.2.doc.page_content, metadata := p.2.doc.metadata,
         relevance_score := p.2.score,
         relevance_rank := p.1 + 1 } : RetrievedDoc))
      = (ScoredDoc.score ∘ Prod.snd) := rfl
  rw [hcomp, ← List.map_map, List.enum_map_snd]

/-- Retrieval assigns rank i + 1 to the element at position i. -/
theorem retrieve_rank (vs : VectorStore) (q : String) (k : Nat)
    (i : Nat) (h : i < (retrieve_relevant_docs (some vs) q k).length) :
    ((retrieve_relevant_docs (some vs) q k).get ⟨i, h⟩).relevance_rank = i + 1 := by
  have hlen : i < (vs q k).length := by
    simpa [retrieve_relevant_docs] using h
  simp [retrieve_relevant_docs, List.get_eq_getElem, List.getElem_map,
    List.getElem_enum]

/-- Behaviour of the streaming handler loop on a header-free tail consisting
of fragment events followed by the terminal event: all events are forwarded,
and the accumulated answer grows by the concatenated fragments. -/
theorem runStream_fragments (q sid ts : String) (cs : ConvStore)
    (frags : List String) (acc : String) (srcs : List SourceSummary) :
    runStream q sid ts cs (frags.map chunkEvent ++ [doneEvent]) acc srcs =
      (frags.map chunkEvent ++ [doneEvent],
       if acc ++ joinStr frags == "" then cs
       else ConvStore.appendEntry cs sid ⟨q, acc ++ joinStr frags, srcs, ts⟩) := by
  induction frags generalizing acc with
  | nil =>
      simp [runStream, doneEvent, joinStr, String.append_empty]
  | cons c rest ih =>
      have hfull : (if (c == "") = true then acc else acc ++ c) = acc ++ c := by
        by_cases hc : c = ""
        · subst hc; simp [String.append_empty]
        · simp [beq_iff_eq, hc]
      simp only [List.map_cons, List.cons_append, runStream, chunkEvent,
        Bool.false_eq_true, if_false, List.append_eq]
      rw [hfull, ih (acc ++ c), joinStr_cons, String.append_assoc]

/-- The answer_chunk fields of a stream with non-empty retrieval are the
empty header chunk followed by the generated fragments. -/
theorem filterMap_stream_chunks (q : String) (srcs : List SourceSummary)
    (frags : List String) :
    List.filterMap (fun e => StreamEvent.answer_chunk e)
        (headerEvent q srcs :: frags.map chunkEvent ++ [doneEvent]) = "" :: frags := by
  have htail : ∀ fr : List String,
      List.filterMap (fun e => StreamEvent.answer_chunk e)
          (fr.map chunkEvent ++ [doneEvent]) = fr := by
    intro fr
    induction fr with
    | nil => rfl
    | cons c t ih =>
        simp only [List.map_cons, List.cons_append, List.filterMap_cons,
          chunkEvent]
        rw [ih]
  rw [List.cons_append]
  rw [show List.filterMap (fun e => StreamEvent.answer_chunk e)
        (headerEvent q srcs :: (frags.map chunkEvent ++ [doneEvent]))
      = "" :: List.filterMap (fun e => StreamEvent.answer_chunk e)
          (frags.map chunkEvent ++ [doneEvent]) from rfl, htail]

/-- Unfolding of ask on non-empty retrieval: the answer is the stripped
generation output over the composed prompt, the sources are the summaries
of the retrieved documents. -/
theorem ask_nonempty (vs : VectorStore) (gen : String → String) (q : String)
    (hist : List Entry)
    (hne : retrieve_relevant_docs (some vs) q 10 ≠ []) :
    ask (some vs) gen q hist =
      .ok q (strTrim (gen (buildPrompt q (retrieve_relevant_docs (some vs) q 10) hist)))
        ((retrieve_relevant_docs (some vs) q 10).map mkSourceSummary) := by
  have h2 : (retrieve_relevant_docs (some vs) q 10).isEmpty = false := by
    simpa [List.isEmpty_iff] using hne
  simp [ask, h2]

/-- Unfolding of ask_stream on non-empty retrieval: a header event, one
event per fragment, and a terminal event. -/
theorem ask_stream_nonempty (vs : VectorStore) (genStream : String → List String)
    (q : String) (hist : List Entry)
    (hne : retrieve_relevant_docs (some vs) q 10 ≠ []) :
    ask_stream (some vs) genStream q hist =
      headerEvent q ((retrieve_relevant_docs (some vs) q 10).map mkSourceSummary)
        :: (genStream (buildPrompt q (retrieve_relevant_docs (some vs) q 10) hist)).map
            chunkEvent
        ++ [doneEvent] := by
  have h2 : (retrieve_relevant_docs (some vs) q 10).isEmpty = false := by
    simpa [List.isEmpty_iff] using hne
  simp [ask_stream, h2]

/-- With a vector store attached, ask never produces the error dictionary. -/
theorem ask_isError_false (vs : VectorStore) (gen : String → String)
    (q : String) (hist : List Entry) :
    (ask (some vs) gen q hist).isError = false := by
  by_cases h2 : (retrieve_relevant_docs (some vs) q 10).isEmpty
    <;> simp [ask, h2, AskResult.isError]

/-- With a vector store attached, no event of ask_stream carries an error
field. -/
theorem ask_stream_no_error_field (vs : VectorStore) (gs : String → List String)
    (q : String) (hist : List Entry) :
    ((ask_stream (some vs) gs q hist).all fun e => e.error == none) = true := by
  by_cases h2 : (retrieve_relevant_docs (some vs) q 10).isEmpty
  · simp [ask_stream, h2, noInfoEvent]
  · simp [ask_stream, h2, headerEvent, doneEvent, chunkEvent, List.all_map]

/-- Readiness invariant: every state reachable through the endpoint
transitions has a vector store handle attached whenever the readiness flag
is set. -/
theorem reachable_ready_vectorstore (s : AppState) (h : Reachable s) :
    s.system_ready = true → s.vectorstore ≠ none := by
  induction h with
  | base => intro hb; simp [initState] at hb
  | step hr hs ih =>
      cases hs with
      | init_ok vs => intro _; simp
      | init_nodocs => exact ih
      | init_err h2 => intro hc; simp at hc
      | reset => intro hc; simp at hc
      | ask_atomic gen q sid ts => exact ih
      | ask_streaming gs q sid ts => exact ih
      | clear_one sid => exact ih
      | clear_every => exact ih

/-- Idempotence of the last-three slice. -/
theorem lastThree_idem (l : List Entry) : lastThree (lastThree l) = lastThree l := by
  unfold lastThree
  rw [List.length_drop]
  have h0 : l.length - (l.length - 3) - 3 = 0 := by omega
  rw [h0, List.drop_zero]

/-- The history section of the prompt only depends on the last three turns. -/
theorem historyText_lastThree (l : List Entry) :
    historyText l = historyText (lastThree l) := by
  cases l with
  | nil => rfl
  | cons a t =>
      have h1 : (a :: t).length > 0 := by simp
      have h2 : (lastThree (a :: t)).length > 0 := by
        unfold lastThree
        rw [List.length_drop]
        simp only [List.length_cons]
        omega
      simp only [historyText, if_pos h1, if_pos h2, lastThree_idem]

/-- C1: when the generation backend fails mid-stream, the code does NOT
emit a terminal error event and does NOT keep the ledger clean; instead the
swallowed error text is forwarded as an ordinary answer_chunk event,
followed by the normal done event, and a ConversationTurn whose answer is
the partial text concatenated with the error text IS appended to the
session. Evaluated on a backend that yields one fragment and then raises. -/
theorem C1_midstream_failure_commits_error_turn :
    ask_question_stream true (some skyStore)
        (fun _ => OllamaLLM.generate_stream ["The sky"] (some "connection refused"))
        skyQ "s1" "t0" []
      = .ok ([{ question := some skyQ, sources := some skySources,
                answer_chunk := some "", done := false },
              { answer_chunk := some "The sky", done := false },
              { answer_chunk := some "Error generating response: connection refused",
                done := false },
              { done := true }],
             [("s1", [⟨skyQ, "The skyError generating response: connection refused",
                       skySources, "t0"⟩])])
      ∧ ((streamEventsOf (ask_question_stream true (some skyStore)
            (fun _ => OllamaLLM.generate_stream ["The sky"] (some "connection refused"))
            skyQ "s1" "t0" [])).all fun e => e.error == none) = true := by
  exact ⟨rfl, rfl⟩

/-- C2: on non-empty retrieval, the stream is exactly one header event
carrying the question, the source summaries and done false (its
answer_chunk field is the empty string), followed by one answer_chunk
event per generated fragment in arrival order, followed by one terminal
done event carrying no content. -/
theorem C2_stream_event_order (vs : VectorStore) (genStream : String → List String)
    (q : String) (hist : List Entry)
    (hne : retrieve_relevant_docs (some vs) q 10 ≠ []) :
    ask_stream (some vs) genStream q hist =
      { question := some q,
        sources := some ((retrieve_relevant_docs (some vs) q 10).map mkSourceSummary),
        answer_chunk := some "", done := false }
        :: (genStream (buildPrompt q (retrieve_relevant_docs (some vs) q 10) hist)).map
            (fun c => { answer_chunk := some c, done := false })
        ++ [{ done := true }] := by
  rw [ask_stream_nonempty vs genStream q hist hne]
  rfl

/-- C2 witness: the stream shape at a concrete store, question and
fragment list. -/
theorem C2_stream_event_order_witness :
    retrieve_relevant_docs (some skyStore) skyQ 10 ≠ []
      ∧ ask_stream (some skyStore) (fun _ => ["The", " sky"]) skyQ [] =
          { question := some skyQ,
            sources := some ((retrieve_relevant_docs (some skyStore) skyQ 10).map
              mkSourceSummary),
            answer_chunk := some "", done := false }
            :: ((fun _ => ["The", " sky"]) (buildPrompt skyQ
                  (retrieve_relevant_docs (some skyStore) skyQ 10) [])).map
                (fun c => { answer_chunk := some c, done := false })
            ++ [{ done := true }] :=
  ⟨by decide, C2_stream_event_order skyStore (fun _ => ["The", " sky"]) skyQ [] (by decide)⟩

/-- C3 counterexample: with the backend returning the same text in both
modes, here a text with surrounding whitespace, the concatenation of the
answer_chunk fragments keeps that whitespace while the atomic answer field
is stripped, so the two differ. -/
theorem C3_counterexample :
    OllamaLLM.generate (Except.ok " blue ")
        = joinStr (OllamaLLM.generate_stream [" blue "] none)
      ∧ streamConcat (ask_stream (some skyStore)
          (fun _ => OllamaLLM.generate_stream [" blue "] none) skyQ []) = " blue "
      ∧ askAnswerD (ask (some skyStore)
          (fun _ => OllamaLLM.generate (Except.ok " blue ")) skyQ []) = "blue"
      ∧ (" blue " : String) ≠ "blue" :=
  ⟨rfl, by decide, by decide, by decide⟩

/-- C3 amended: for a successful stream over non-empty retrieval, the
concatenation of the answer_chunk fragments agrees with the atomic answer
only after stripping surrounding whitespace, because atomic mode strips
the generated text and streaming mode does not. -/
theorem C3_concat_equals_atomic_after_trim (vs : VectorStore)
    (gen : String → String) (genStream : String → List String)
    (q : String) (hist : List Entry)
    (hne : retrieve_relevant_docs (some vs) q 10 ≠ [])
    (hsame : joinStr (genStream (buildPrompt q
          (retrieve_relevant_docs (some vs) q 10) hist))
        = gen (buildPrompt q (retrieve_relevant_docs (some vs) q 10) hist)) :
    strTrim (streamConcat (ask_stream (some vs) genStream q hist))
      = askAnswerD (ask (some vs) gen q hist) := by
  rw [ask_stream_nonempty vs genStream q hist hne,
    ask_nonempty vs gen q hist hne]
  simp only [streamConcat, askAnswerD]
  rw [filterMap_stream_chunks, joinStr_cons, String.empty_append, hsame]

/-- C3 amended witness: concrete store, question and matching backends. -/
theorem C3_concat_equals_atomic_after_trim_witness :
    retrieve_relevant_docs (some skyStore) skyQ 10 ≠ []
      ∧ joinStr ((fun _ => [" blue "]) (buildPrompt skyQ
            (retrieve_relevant_docs (some skyStore) skyQ 10) []))
          = (fun _ => " blue ") (buildPrompt skyQ
              (retrieve_relevant_docs (some skyStore) skyQ 10) [])
      ∧ strTrim (streamConcat (ask_stream (some skyStore)
            (fun _ => [" blue "]) skyQ []))
          = askAnswerD (ask (some skyStore) (fun _ => " blue ") skyQ []) :=
  ⟨by decide, by decide,
   C3_concat_equals_atomic_after_trim skyStore (fun _ => " blue ")
     (fun _ => [" blue "]) skyQ [] (by decide) (by decide)⟩

/-- C4: when the generation backend raises in atomic mode, the handler does
NOT propagate a distinct generation error: the swallowed error text comes
back as the ordinary answer string of a 200 response and is committed to
the ledger as a turn. Evaluated on a backend that raises. -/
theorem C4_generation_failure_swallowed :
    ask_question true (some skyStore)
        (fun _ => OllamaLLM.generate (Except.error "connection refused"))
        skyQ "s1" "t0" []
      = .ok (⟨skyQ, "Error generating response: connection refused", skySources, "s1"⟩,
             [("s1", [⟨skyQ, "Error generating response: connection refused",
                       skySources, "t0"⟩])]) := rfl

/-- C5: in atomic mode with zero retrieved chunks, the handler returns the
fixed no-information answer with empty sources, appends exactly that one
turn to the session, and the result does not depend on the generation
backend at all (the generation step is skipped). -/
theorem C5_no_chunks_atomic (vs : VectorStore) (gen gen2 : String → String)
    (q sid ts : String) (cs : ConvStore)
    (hempty : vs q 10 = []) :
    ask_question true (some vs) gen q sid ts cs
        = .ok (⟨q, noInfoAnswer, [], sid⟩,
               ConvStore.appendEntry cs sid ⟨q, noInfoAnswer, [], ts⟩)
      ∧ ConvStore.get (ConvStore.appendEntry cs sid ⟨q, noInfoAnswer, [], ts⟩) sid
          = ConvStore.get cs sid ++ [⟨q, noInfoAnswer, [], ts⟩]
      ∧ ask (some vs) gen q (ConvStore.get cs sid)
          = ask (some vs) gen2 q (ConvStore.get cs sid) := by
  have hr : retrieve_relevant_docs (some vs) q 10 = [] := by
    simp [retrieve_relevant_docs, hempty]
  refine ⟨?_, ConvStore.get_appendEntry cs sid _, ?_⟩
  · simp [ask_question, ask, hr]
  · simp [ask, hr]

/-- C5 witness: a store with zero hits at a concrete question. -/
theorem C5_no_chunks_atomic_witness :
    emptyStore "nonsense" 10 = []
      ∧ (ask_question true (some emptyStore) (fun _ => "a") "nonsense" "s1" "t0" []
          = .ok (⟨"nonsense", noInfoAnswer, [], "s1"⟩,
                 ConvStore.appendEntry [] "s1" ⟨"nonsense", noInfoAnswer, [], "t0"⟩)
        ∧ ConvStore.get (ConvStore.appendEntry [] "s1"
            ⟨"nonsense", noInfoAnswer, [], "t0"⟩) "s1"
            = ConvStore.get [] "s1" ++ [⟨"nonsense", noInfoAnswer, [], "t0"⟩]
        ∧ ask (some emptyStore) (fun _ => "a") "nonsense" (ConvStore.get [] "s1")
            = ask (some emptyStore) (fun _ => "b") "nonsense" (ConvStore.get [] "s1")) :=
  ⟨rfl, C5_no_chunks_atomic emptyStore (fun _ => "a") (fun _ => "b")
    "nonsense" "s1" "t0" [] rfl⟩

/-- C6 counterexample: in streaming mode with zero retrieved chunks the
stream is the single terminal fallback event, but NO ledger entry is
appended: the terminal event carries the fallback text under the answer
key, not answer_chunk, so the accumulated answer stays empty and the
handler skips the append. -/
theorem C6_counterexample :
    ask_question_stream true (some emptyStore) (fun _ => []) "nonsense" "s1" "t0" []
        = .ok ([{ question := some "nonsense",
                  answer := some "I couldn\x27t find any relevant information.",
                  sources := some [], done := true }], [])
      ∧ ConvStore.get (streamStoreOf (ask_question_stream true (some emptyStore)
          (fun _ => []) "nonsense" "s1" "t0" [])) "s1" = [] :=
  ⟨rfl, rfl⟩

/-- C6 amended: in streaming mode with zero retrieved chunks the handler
emits exactly one terminal event carrying the fallback answer and done
true, then ends the stream, and the conversation store is left unchanged,
so no ledger entry is appended for that exchange (unlike atomic mode). -/
theorem C6_no_chunks_stream (vs : VectorStore) (gs : String → List String)
    (q sid ts : String) (cs : ConvStore)
    (hempty : vs q 10 = []) :
    ask_question_stream true (some vs) gs q sid ts cs
      = .ok ([{ question := some q,
                answer := some "I couldn\x27t find any relevant information.",
                sources := some [], done := true }], cs) := by
  have hr : retrieve_relevant_docs (some vs) q 10 = [] := by
    simp [retrieve_relevant_docs, hempty]
  simp [ask_question_stream, ask_stream, hr, runStream, noInfoEvent]

/-- C6 amended witness: empty store at a concrete question and session. -/
theorem C6_no_chunks_stream_witness :
    emptyStore "nonsense" 10 = []
      ∧ ask_question_stream true (some emptyStore) (fun _ => [])
          "nonsense" "s1" "t0" [("other", [turn1])]
        = .ok ([{ question := some "nonsense",
                  answer := some "I couldn\x27t find any relevant information.",
                  sources := some [], done := true }], [("other", [turn1])]) :=
  ⟨rfl, C6_no_chunks_stream emptyStore (fun _ => []) "nonsense" "s1" "t0"
    [("other", [turn1])] rfl⟩

/-- C7: the history rendered into the composed prompt is at most the last
three turns of the supplied session history; the prompt built from the
full history equals the prompt built from its last-three slice, and for a
history that is longer than three turns only the final three are rendered,
oldest first, as User and Assistant lines after the context block. -/
theorem C7_history_window (q : String) (ctx : List RetrievedDoc) :
    (∀ hist : List Entry, (lastThree hist).length ≤ 3
        ∧ buildPrompt q ctx hist = buildPrompt q ctx (lastThree hist))
      ∧ (∀ pre w : List Entry, w.length = 3 →
          buildPrompt q ctx (pre ++ w) = buildPrompt q ctx w
            ∧ historyText (pre ++ w)
                = "\n\nPrevious conversation:\n" ++ joinStr (w.map renderTurn)) := by
  have hwin : ∀ hist : List Entry,
      buildPrompt q ctx hist = buildPrompt q ctx (lastThree hist) := by
    intro hist
    unfold buildPrompt
    rw [historyText_lastThree]
  refine ⟨fun hist => ⟨?_, hwin hist⟩, fun pre w hw => ?_⟩
  · unfold lastThree
    rw [List.length_drop]
    omega
  · have hlast : lastThree (pre ++ w) = w := by
      unfold lastThree
      rw [List.length_append, hw]
      have h3 : pre.length + 3 - 3 = pre.length := by omega
      rw [h3, List.drop_left]
    have hne : (pre ++ w).length > 0 := by
      rw [List.length_append, hw]; omega
    have htext : historyText (pre ++ w)
        = "\n\nPrevious conversation:\n" ++ joinStr (w.map renderTurn) := by
      unfold historyText
      rw [if_pos hne, hlast]
    constructor
    · rw [hwin (pre ++ w), hlast]
    · exact htext

/-- C7 witness: a four-turn history renders only the final three turns. -/
theorem C7_history_window_witness :
    ([turn2, turn3, turn4] : List Entry).length = 3
      ∧ (buildPrompt "Q" [] ([turn1] ++ [turn2, turn3, turn4])
            = buildPrompt "Q" [] [turn2, turn3, turn4]
        ∧ historyText ([turn1] ++ [turn2, turn3, turn4])
            = "\n\nPrevious conversation:\n"
              ++ joinStr ([turn2, turn3, turn4].map renderTurn)) :=
  ⟨rfl, (C7_history_window "Q" []).2 [turn1] [turn2, turn3, turn4] rfl⟩

/-- C8: whenever the vector store returns hits sorted by non-decreasing
score, as the similarity search contract provides, the retrieval output
carries contiguous ranks one to the length in output order and its scores
are sorted non-decreasingly; with no store attached or zero hits the call
returns the empty list rather than an error. -/
theorem C8_retrieval_ranks (vs : VectorStore) (q : String) (k : Nat)
    (hsorted : List.Sorted (· ≤ ·) ((vs q k).map ScoredDoc.score)) :
    (∀ i : Fin (retrieve_relevant_docs (some vs) q k).length,
        ((retrieve_relevant_docs (some vs) q k).get i).relevance_rank = i.1 + 1)
      ∧ List.Sorted (· ≤ ·)
          ((retrieve_relevant_docs (some vs) q k).map RetrievedDoc.relevance_score)
      ∧ retrieve_relevant_docs none q k = []
      ∧ (vs q k = [] → retrieve_relevant_docs (some vs) q k = []) := by
  refine ⟨fun i => retrieve_rank vs q k i.1 i.2, ?_, rfl, fun h => ?_⟩
  · rw [retrieve_map_score]; exact hsorted
  · simp [retrieve_relevant_docs, h]

/-- C8 witness: a concrete two-hit store sorted by score. -/
theorem C8_retrieval_ranks_witness :
    List.Sorted (· ≤ ·) ((twoDocStore "q" 5).map ScoredDoc.score)
      ∧ ((∀ i : Fin (retrieve_relevant_docs (some twoDocStore) "q" 5).length,
            ((retrieve_relevant_docs (some twoDocStore) "q" 5).get i).relevance_rank
              = i.1 + 1)
        ∧ List.Sorted (· ≤ ·)
            ((retrieve_relevant_docs (some twoDocStore) "q" 5).map
              RetrievedDoc.relevance_score)
        ∧ retrieve_relevant_docs none "q" 5 = []
        ∧ (twoDocStore "q" 5 = [] → retrieve_relevant_docs (some twoDocStore) "q" 5 = [])) :=
  ⟨by decide, C8_retrieval_ranks twoDocStore "q" 5 (by decide)⟩

/-- C9 counterexample: for an unknown session identifier the history read
endpoint raises a 404 error instead of returning an empty sequence. -/
theorem C9_counterexample :
    get_conversation_history [] "unknown"
      = .error ⟨404, "Session \x27unknown\x27 not found"⟩ := rfl

/-- C9 amended: for a session identifier absent from the store, the history
read endpoint and the single-session clear endpoint both fail with the 404
not-found error, while the internal history lookup used by the question
pipeline returns the empty sequence rather than an error. -/
theorem C9_not_found (cs : ConvStore) (sid : String)
    (h : ConvStore.contains cs sid = false) :
    get_conversation_history cs sid
        = .error ⟨404, "Session \x27" ++ sid ++ "\x27 not found"⟩
      ∧ clear_conversation_history cs sid
          = .error ⟨404, "Session \x27" ++ sid ++ "\x27 not found"⟩
      ∧ ConvStore.get cs sid = [] := by
  refine ⟨?_, ?_, ConvStore.get_of_not_contains cs sid h⟩
    <;> simp [get_conversation_history, clear_conversation_history, h]

/-- C9 amended witness: an unknown identifier on a concrete store. -/
theorem C9_not_found_witness :
    ConvStore.contains [("other", [turn1])] "unknown" = false
      ∧ (get_conversation_history [("other", [turn1])] "unknown"
            = .error ⟨404, "Session \x27unknown\x27 not found"⟩
        ∧ clear_conversation_history [("other", [turn1])] "unknown"
            = .error ⟨404, "Session \x27unknown\x27 not found"⟩
        ∧ ConvStore.get [("other", [turn1])] "unknown" = []) :=
  ⟨by decide, C9_not_found [("other", [turn1])] "unknown" (by decide)⟩

/-- C10: in every state reachable through the HTTP endpoint transitions in
which the readiness flag is set, the vector store handle is attached, so
the engine-level not-initialized error branch is unreachable from the ask
endpoints once their readiness check passes: atomic ask never returns the
error dictionary and no streamed event carries an error field. -/
theorem C10_ready_state_invariant (s : AppState) (h : Reachable s)
    (hready : s.system_ready = true) :
    s.vectorstore ≠ none
      ∧ (∀ (gen : String → String) (q : String) (hist : List Entry),
          (ask s.vectorstore gen q hist).isError = false)
      ∧ (∀ (gs : String → List String) (q : String) (hist : List Entry),
          ((ask_stream s.vectorstore gs q hist).all fun e => e.error == none) = true) := by
  have hvs : s.vectorstore ≠ none := reachable_ready_vectorstore s h hready
  refine ⟨hvs, ?_, ?_⟩
  · intro gen q hist
    cases hv : s.vectorstore with
    | none => exact absurd hv hvs
    | some vs => exact ask_isError_false vs gen q hist
  · intro gs q hist
    cases hv : s.vectorstore with
    | none => exact absurd hv hvs
    | some vs => exact ask_stream_no_error_field vs gs q hist

/-- C10 witness: the state reached by one successful ingestion from the
initial state. -/
theorem C10_ready_state_invariant_witness :
    Reachable readyState ∧ readyState.system_ready = true
      ∧ (readyState.vectorstore ≠ none
        ∧ (∀ (gen : String → String) (q : String) (hist : List Entry),
            (ask readyState.vectorstore gen q hist).isError = false)
        ∧ (∀ (gs : String → List String) (q : String) (hist : List Entry),
            ((ask_stream readyState.vectorstore gs q hist).all
              fun e => e.error == none) = true)) :=
  ⟨Reachable.step Reachable.base (Step.init_ok initState skyStore), rfl,
   C10_ready_state_invariant readyState
     (Reachable.step Reachable.base (Step.init_ok initState skyStore)) rfl⟩

end Rag
